import Mathlib

/-!
# Interview Simulator with AI Feedback — verification of the evaluation pipeline

A shallow embedding of the answer-evaluation services of the repository
(`backend/services/enhanced_evaluation_service.py` and
`backend/services/evaluation/*.py`), together with theorems settling the
stated properties of the pipeline.

Conventions of the embedding:
* Python numbers are modelled exactly over `ℚ` (scores in the sources are
  produced by integer additions/subtractions and exact decimal literals, so
  the rational semantics coincides with the Python values on these paths).
* Python `round(x, n)` is round-half-to-even, modelled by `pyRound`.
* Regex-derived counts (filler words, hesitation markers, sentence splits,
  structure-component detection, concept extraction) are abstracted as inputs
  to the functions that consume them; all arithmetic, branching, list and set
  manipulation downstream of the regex layer is translated from the source.
* The Python substring test `needle in haystack` and `str.lower()` are
  implemented executably (`strContains`, `pyLower`).
-/

namespace InterviewSim

/-- Round-half-to-even to an integer, given exact rational input; the tie at
fractional part `1/2` goes to the even neighbour, as in Python `round`. -/
def pyRoundInt (q : ℚ) : ℤ :=
  let f : ℤ := ⌊q⌋
  let r : ℚ := q - f
  if r < 1/2 then f
  else if 1/2 < r then f + 1
  else if f % 2 = 0 then f else f + 1

/-- Embeds Python `round(q, ndigits)` under exact rational semantics. -/
def pyRound (q : ℚ) (ndigits : ℕ) : ℚ :=
  (pyRoundInt (q * 10 ^ ndigits) : ℚ) / 10 ^ ndigits

/-- Embeds `EnhancedEvaluationService._calculate_overall_score`
(`enhanced_evaluation_service.py`, lines 98–105): weighted sum with technical
at 0.4, clarity at 0.3, confidence at 0.3, rounded to one decimal place. -/
def calculate_overall_score (clarity confidence technical : ℚ) : ℚ :=
  let overall := technical * (4/10) + clarity * (3/10) + confidence * (3/10)
  pyRound overall 1

/-- The formula of the spec for the overall score, written exactly as the spec
states it: `round(0.4·technical + 0.3·clarity + 0.3·confidence, 1)`. -/
def specOverallScore (clarity confidence technical : ℚ) : ℚ :=
  pyRound ((4/10) * technical + (3/10) * clarity + (3/10) * confidence) 1

/-- C2: Whenever the three dimension scores (clarity, confidence, technical)
are well-formed numbers, the overall score computed by the service equals
`round(0.4 * technical + 0.3 * clarity + 0.3 * confidence, 1)`. -/
theorem overall_score_matches_spec_formula (clarity confidence technical : ℚ) :
    calculate_overall_score clarity confidence technical =
      specOverallScore clarity confidence technical := by
  unfold calculate_overall_score specOverallScore
  ring_nf

/-! ## String primitives: Python `str.lower()` and the substring test `in` -/

/-- Embeds Python `str.lower()` (ASCII-adequate for the rubric concepts in
this repository). -/
def pyLower (s : String) : String :=
  String.mk (s.toList.map Char.toLower)

/-- Embeds the Python substring test `needle in haystack`: some contiguous
slice of `haystack` equals `needle` (the empty needle is always contained). -/
def strContains (haystack needle : String) : Bool :=
  (List.range (haystack.toList.length + 1)).any fun i =>
    (haystack.toList.drop i).take needle.toList.length == needle.toList

/-- Embeds the check `concept.lower() in transcript_lower` used by the
technical scorer, with `transcriptLower` already lowercased. -/
def conceptIn (transcriptLower concept : String) : Bool :=
  strContains transcriptLower (pyLower concept)

/-! ## `EnhancedScoringService` (`evaluation/enhanced_scoring.py`)

The regex layer (filler-word counting, sentence splitting, hesitation
counting, …) is abstracted: each scorer takes the counts that the regex
passes produce and performs the arithmetic, branching and list
construction on them. -/

/-- The dictionary returned by `calculate_enhanced_clarity_score`. -/
structure ClarityReport where
  score : ℚ
  issues : List String
  evidence : List String
  strengths : List String
  filler_count : ℚ
  sentence_count : ℕ
  avg_sentence_length : ℚ
  deriving DecidableEq, Repr

/-- Embeds `calculate_enhanced_clarity_score` (lines 40–109) downstream of the
regex passes: `fillerCount` is the weighted filler-word count,
`fillerWordsFound` the list of found filler words, `sentenceCount` and
`avgSentenceLength` come from the sentence split, `flowCount` from counting
the flow words. -/
def calculate_enhanced_clarity_score (fillerCount : ℚ) (fillerWordsFound : List String)
    (sentenceCount : ℕ) (avgSentenceLength : ℚ) (flowCount : ℕ) : ClarityReport :=
  let score : ℚ := 10
  -- filler-word deductions
  let fillerStep : ℚ × List String × List String × List String :=
    if fillerCount > 8 then
      (score - 4, ["Excessive filler words detected"], fillerWordsFound.take 5, [])
    else if fillerCount > 4 then
      (score - 2, ["Some filler words present"], fillerWordsFound.take 3, [])
    else
      (score, [], [], ["Minimal use of filler words"])
  let score := fillerStep.1
  -- sentence-structure deductions
  let sentenceStep : ℚ × List String × List String :=
    if sentenceCount < 3 then
      (score - 2, ["Too few complete sentences"], [])
    else if avgSentenceLength > 25 then
      (score - 1, ["Sentences too long and complex"], [])
    else if avgSentenceLength < 8 then
      (score - 1, ["Sentences too short and choppy"], [])
    else
      (score, [], ["Good sentence structure and length"])
  let score := sentenceStep.1
  -- logical-flow deductions
  let flowStep : ℚ × List String × List String :=
    if flowCount = 0 then
      (score - 2, ["Lacks logical flow indicators"], [])
    else if flowCount ≥ 3 then
      (score, [], ["Good logical flow with transitions"])
    else
      (score, [], [])
  let score := flowStep.1
  { score := max 0 (min 10 score)
    issues := fillerStep.2.1 ++ sentenceStep.2.1 ++ flowStep.2.1
    evidence := fillerStep.2.2.1
    strengths := fillerStep.2.2.2 ++ sentenceStep.2.2 ++ flowStep.2.2
    filler_count := fillerCount
    sentence_count := sentenceCount
    avg_sentence_length := pyRound avgSentenceLength 1 }

/-- The audio metadata consulted by the confidence scorer: `speaking_rate`
(default 150) and `long_pauses` (default 0) as read from the dictionary. -/
structure AudioMeta where
  speaking_rate : ℚ
  long_pauses : ℕ
  deriving DecidableEq, Repr

/-- The dictionary returned by `calculate_enhanced_confidence_score`
(`voice_metrics` omitted). -/
structure ConfidenceReport where
  score : ℚ
  issues : List String
  evidence : List String
  strengths : List String
  hesitation_count : ℚ
  passive_ratio : ℚ
  confident_words : ℕ
  deriving DecidableEq, Repr

/-- Embeds `calculate_enhanced_confidence_score` (lines 111–196) downstream of
the text passes: `hesitationCount` is the weighted hesitation-marker count,
`hesitationWordsFound` the markers found, `passiveRatio` the passive-indicator
share of words, `confidentCount` the number of confident words present;
`audio` is `none` when the metadata dictionary is empty (falsy). -/
def calculate_enhanced_confidence_score (hesitationCount : ℚ)
    (hesitationWordsFound : List String) (passiveRatio : ℚ) (confidentCount : ℕ)
    (audio : Option AudioMeta) : ConfidenceReport :=
  let score : ℚ := 10
  let hesitationStep : ℚ × List String × List String × List String :=
    if hesitationCount > 5 then
      (score - 3, ["Frequent hesitation markers"], hesitationWordsFound.take 3, [])
    else if hesitationCount > 2 then
      (score - 1, ["Some hesitation detected"], [], [])
    else
      (score, [], [], ["Speaks with minimal hesitation"])
  let score := hesitationStep.1
  let passiveStep : ℚ × List String × List String :=
    if passiveRatio > 1/5 then
      (score - 2, ["Heavy use of passive voice"], [])
    else if passiveRatio > 3/20 then
      (score - 1, ["Some passive language"], [])
    else
      (score, [], ["Uses active voice effectively"])
  let score := passiveStep.1
  let confidentStep : ℚ × List String × List String :=
    if confidentCount ≥ 3 then
      (score, [], ["Strong confident language"])
    else if confidentCount = 0 then
      (score - 1, ["Lacks confident language"], [])
    else
      (score, [], [])
  let score := confidentStep.1
  let voiceStep : ℚ × List String × List String :=
    match audio with
    | none => (0, [], [])
    | some meta =>
      let rateStep : ℚ × List String × List String :=
        if meta.speaking_rate < 100 then
          (-1, ["Speaking too slowly"], [])
        else if meta.speaking_rate > 180 then
          (-1, ["Speaking too quickly"], [])
        else
          (0, [], ["Good speaking pace"])
      let pauseStep : ℚ × List String × List String :=
        if meta.long_pauses > 3 then
          (rateStep.1 - 2, ["Frequent long pauses"], [])
        else if meta.long_pauses ≤ 1 then
          (rateStep.1, [], ["Smooth delivery with minimal pauses"])
        else
          (rateStep.1, [], [])
      (pauseStep.1, rateStep.2.1 ++ pauseStep.2.1, rateStep.2.2 ++ pauseStep.2.2)
  let score := score + voiceStep.1
  { score := max 0 (min 10 score)
    issues := hesitationStep.2.1 ++ passiveStep.2.1 ++ confidentStep.2.1 ++ voiceStep.2.1
    evidence := hesitationStep.2.2.1
    strengths := hesitationStep.2.2.2 ++ passiveStep.2.2 ++ confidentStep.2.2 ++ voiceStep.2.2
    hesitation_count := hesitationCount
    passive_ratio := pyRound passiveRatio 2
    confident_words := confidentCount }

/-- The question rubric dictionary handed to the technical scorer and the
coverage analyzer. -/
structure Rubric where
  must_have_concepts : List String
  good_to_have_concepts : List String
  red_flags : List String
  deriving DecidableEq, Repr

/-- The dictionary returned by `calculate_enhanced_technical_score`. -/
structure TechnicalReport where
  score : ℚ
  issues : List String
  evidence : List String
  strengths : List String
  missing_concepts : List String
  covered_concepts : List String
  coverage_percentage : ℚ
  deriving DecidableEq, Repr

/-- The keyword list of the rubric-free branch of
`calculate_enhanced_technical_score` (lines 261–266). -/
def technical_keywords : List String :=
  ["hash", "bucket", "collision", "array", "linked list", "key", "value",
   "hashcode", "equals", "load factor", "capacity", "resize", "rehash",
   "time complexity", "space complexity", "o(1)", "constant time",
   "chaining", "open addressing", "tree map", "red-black tree"]

/-- Embeds `calculate_enhanced_technical_score` (lines 198–293), both the
rubric branch and the keyword fallback branch. -/
def calculate_enhanced_technical_score (transcript : String)
    (question_rubric : Option Rubric) : TechnicalReport :=
  let transcript_lower := pyLower transcript
  match question_rubric with
  | some rubric =>
    let must_have := rubric.must_have_concepts
    let covered_must := must_have.filter fun c => conceptIn transcript_lower c
    let missing_concepts := must_have.filter fun c => !conceptIn transcript_lower c
    let must_have_score : ℚ := 2 * covered_must.length
    let good_to_have := rubric.good_to_have_concepts
    let covered_good := good_to_have.filter fun c => conceptIn transcript_lower c
    let good_to_have_score : ℚ := covered_good.length
    let red_flag_found := rubric.red_flags.filter fun c => conceptIn transcript_lower c
    let red_flag_penalty : ℚ := 2 * red_flag_found.length
    let base_score := must_have_score + good_to_have_score - red_flag_penalty
    let covered_concepts := covered_must ++ covered_good
    let total_concepts := must_have.length + good_to_have.length
    let coverage_ratio : ℚ :=
      if 0 < total_concepts then (covered_concepts.length : ℚ) / total_concepts else 0
    -- single if/elif/elif chain on the coverage ratio
    let ratioStrengths :=
      if coverage_ratio ≥ 4/5 then ["Comprehensive coverage of key concepts"]
      else if coverage_ratio ≥ 3/5 then ["Good coverage of main concepts"]
      else []
    let ratioIssues :=
      if coverage_ratio ≥ 4/5 then []
      else if coverage_ratio ≥ 3/5 then []
      else if coverage_ratio < 2/5 then ["Insufficient coverage of key concepts"]
      else []
    let missingIssues :=
      if missing_concepts ≠ [] then
        ["Missing key concepts: " ++ String.intercalate ", " (missing_concepts.take 3)]
      else []
    let redIssues :=
      if red_flag_found ≠ [] then
        ["Potential misconceptions: " ++ String.intercalate ", " red_flag_found]
      else []
    { score := min 10 (max 0 base_score)
      issues := ratioIssues ++ missingIssues ++ redIssues
      evidence := []
      strengths := ratioStrengths
      missing_concepts := missing_concepts
      covered_concepts := covered_concepts
      coverage_percentage :=
        if missing_concepts ≠ [] ∨ covered_concepts ≠ [] then
          pyRound ((covered_concepts.length : ℚ) /
            ((missing_concepts.length : ℚ) + covered_concepts.length) * 100) 1
        else 0 }
  | none =>
    let found_keywords := technical_keywords.filter fun k => strContains transcript_lower k
    let keyword_score : ℚ := found_keywords.length
    let score := min 10 keyword_score
    { score := score
      issues := if score ≥ 7 then [] else if score ≥ 4 then []
        else ["Limited technical terminology"]
      evidence := found_keywords.take 5
      strengths := if score ≥ 7 then ["Strong technical vocabulary"]
        else if score ≥ 4 then ["Adequate technical knowledge"]
        else []
      missing_concepts := []
      covered_concepts := []
      coverage_percentage := 0 }

/-! ## `StructureAnalyzer` (`evaluation/structure_analyzer.py`)

The regex detection loop (lines 67–80) is abstracted into a `StructureInfo`
record holding, for each of the four structural components, the detection
flag and the recorded match position.  The loop initialises every position to
`-1` and sets `detected = True` together with a match position (which is
`≥ 0`) exactly for the components whose patterns match, so every reachable
record satisfies `StructureInfo.WF`.  Everything downstream of the regex loop
is translated from the source. -/

/-- The four structural components, in the insertion order of the Python
dictionaries (`introduction`, `explanation`, `example`, `conclusion`). -/
inductive SComp where
  | introduction
  | explanation
  | exampleComp
  | conclusion
  deriving DecidableEq, Repr

/-- The Python dictionary key of each component. -/
def compName : SComp → String
  | .introduction => "introduction"
  | .explanation => "explanation"
  | .exampleComp => "example"
  | .conclusion => "conclusion"

/-- Embeds `order.index(comp)` for `order = ["introduction", "explanation",
"example", "conclusion"]` (`_is_logical_order`, line 127). -/
def orderIndex : SComp → ℕ
  | .introduction => 0
  | .explanation => 1
  | .exampleComp => 2
  | .conclusion => 3

/-- Outcome of the regex detection loop: the `structure_detected` and
`structure_positions` dictionaries. -/
structure StructureInfo where
  introductionDetected : Bool
  explanationDetected : Bool
  exampleDetected : Bool
  conclusionDetected : Bool
  introductionPos : ℤ
  explanationPos : ℤ
  examplePos : ℤ
  conclusionPos : ℤ
  deriving DecidableEq, Repr

/-- Reads `structure_detected[c]` as a function of the component. -/
def StructureInfo.detectedOf (s : StructureInfo) : SComp → Bool
  | .introduction => s.introductionDetected
  | .explanation => s.explanationDetected
  | .exampleComp => s.exampleDetected
  | .conclusion => s.conclusionDetected

/-- Reads `structure_positions[c]` as a function of the component. -/
def StructureInfo.posOf (s : StructureInfo) : SComp → ℤ
  | .introduction => s.introductionPos
  | .explanation => s.explanationPos
  | .exampleComp => s.examplePos
  | .conclusion => s.conclusionPos

/-- The invariant the detection loop establishes: a component is detected
exactly when its recorded position is `≥ 0` (positions start at `-1` and are
overwritten with `match.start() ≥ 0` exactly when a pattern matches). -/
def StructureInfo.WF (s : StructureInfo) : Prop :=
  (s.introductionDetected = true ↔ 0 ≤ s.introductionPos) ∧
  (s.explanationDetected = true ↔ 0 ≤ s.explanationPos) ∧
  (s.exampleDetected = true ↔ 0 ≤ s.examplePos) ∧
  (s.conclusionDetected = true ↔ 0 ≤ s.conclusionPos)

/-- Lists `structure_positions.items()` in dictionary insertion order. -/
def StructureInfo.positionsItems (s : StructureInfo) : List (SComp × ℤ) :=
  [(.introduction, s.introductionPos), (.explanation, s.explanationPos),
   (.exampleComp, s.examplePos), (.conclusion, s.conclusionPos)]

/-- Python string comparison (lexicographic on code points) on the explicit
character lists. -/
def charListLt : List Char → List Char → Bool
  | [], [] => false
  | [], _ :: _ => true
  | _ :: _, [] => false
  | a :: as, b :: bs => if a < b then true else if b < a then false else charListLt as bs

/-- Python comparison of the component dictionary-key strings. -/
def nameLt (a b : SComp) : Bool :=
  charListLt (compName a).toList (compName b).toList

/-- Python comparison of `(pos, comp)` tuples: lexicographic, with the
component compared by its dictionary-key string. -/
def pairLt (a b : ℤ × SComp) : Bool :=
  decide (a.1 < b.1) || (a.1 == b.1 && nameLt a.2 b.2)

/-- Insertion of one `(pos, comp)` pair into a sorted list (ascending in
`pairLt`); together with `pySort` this computes Python `list.sort()` on
pairwise-distinct keys. -/
def insertPair (a : ℤ × SComp) : List (ℤ × SComp) → List (ℤ × SComp)
  | [] => [a]
  | b :: bs => if pairLt a b then a :: b :: bs else b :: insertPair a bs

/-- Sorting of the `(pos, comp)` pairs, as `detected_positions.sort()`. -/
def pySort : List (ℤ × SComp) → List (ℤ × SComp)
  | [] => []
  | a :: rest => insertPair a (pySort rest)

/-- The scan of `_is_logical_order` (lines 134–140): `False` as soon as an
adjacent pair of canonical indices descends, else `True`. -/
def ascendingScan : List ℕ → Bool
  | a :: b :: rest => !(decide (a > b)) && ascendingScan (b :: rest)
  | _ => true

/-- Embeds `_is_logical_order` (lines 124–140). -/
def is_logical_order (s : StructureInfo) : Bool :=
  let detected_positions :=
    (s.positionsItems.filter fun cp => decide (0 ≤ cp.2)).map fun cp => (cp.2, cp.1)
  let sorted := pySort detected_positions
  let detected_components := sorted.map fun pc => pc.2
  ascendingScan (detected_components.map orderIndex)

/-- Embeds `_calculate_structure_score` (lines 102–122): component weights
2.5 / 3.0 / 2.0 / 2.5, a bonus of 1.0 for logical order, capped at 10. -/
def calculate_structure_score (s : StructureInfo) : ℚ :=
  let base_score : ℚ :=
    (if s.introductionDetected then (5/2 : ℚ) else 0) +
    (if s.explanationDetected then 3 else 0) +
    (if s.exampleDetected then 2 else 0) +
    (if s.conclusionDetected then (5/2 : ℚ) else 0)
  let base_score := if is_logical_order s then base_score + 1 else base_score
  min 10 base_score

/-- Embeds `_identify_structure_issues` (lines 142–167). -/
def identify_structure_issues (s : StructureInfo) : List String :=
  (if !s.introductionDetected then ["Missing clear introduction"] else []) ++
  (if !s.explanationDetected then ["Lacks detailed explanation"] else []) ++
  (if !s.exampleDetected then ["No examples provided"] else []) ++
  (if !s.conclusionDetected then ["Missing conclusion or summary"] else []) ++
  (if s.exampleDetected && s.introductionDetected then
    (if s.explanationPos == -1 && s.examplePos > s.introductionPos then
      ["Example appears before explanation"]
    else [])
  else [])

/-- Embeds `_generate_structure_suggestions` (lines 169–188). -/
def generate_structure_suggestions (s : StructureInfo) (issues : List String) :
    List String :=
  (if !s.introductionDetected then ["Start with a clear definition or overview"] else []) ++
  (if !s.explanationDetected then ["Provide detailed explanation of how things work"] else []) ++
  (if !s.exampleDetected then ["Include real-world examples to illustrate concepts"] else []) ++
  (if !s.conclusionDetected then ["End with a summary or key takeaway"] else []) ++
  (if issues.length > 2 then ["Structure your answer with clear beginning, middle, and end"] else [])

/-- Embeds `sum(structure_detected.values())` (`_assess_logical_flow`, line 231). -/
def detected_count (s : StructureInfo) : ℕ :=
  (if s.introductionDetected then 1 else 0) + (if s.explanationDetected then 1 else 0) +
  (if s.exampleDetected then 1 else 0) + (if s.conclusionDetected then 1 else 0)

/-- Embeds `_assess_logical_flow` (lines 229–245). -/
def assess_logical_flow (s : StructureInfo) : String :=
  let c := detected_count s
  if c = 0 then "no_structure"
  else if c = 1 then "minimal_structure"
  else if c = 2 then "basic_structure"
  else if c = 3 then "good_structure"
  else if is_logical_order s then "excellent_structure"
  else "disorganized_structure"

/-- The keys of the dictionary returned by `analyze_answer_structure` that the
claims and the suggestion synthesis consume (the evidence and sentence-level
keys are regex-derived and not consumed by any claim). -/
structure StructureReport where
  structure_score : ℚ
  issues : List String
  suggestions : List String
  logical_flow : String
  deriving DecidableEq, Repr

/-- Embeds `analyze_answer_structure` (lines 40–100) downstream of the regex
detection loop. -/
def analyze_answer_structure (s : StructureInfo) : StructureReport :=
  let structure_issues := identify_structure_issues s
  { structure_score := calculate_structure_score s
    issues := structure_issues
    suggestions := generate_structure_suggestions s structure_issues
    logical_flow := assess_logical_flow s }

/-! ## `CoverageAnalyzer` (`evaluation/coverage_analyzer.py`)

`_extract_concepts` is a regex pass producing a set of strings; it is
abstracted as a function parameter `extract`.  Python converts sets to lists
in an unspecified iteration order; that enumeration is abstracted as a
parameter `setList`, and the fields whose values are such conversions of
whole sets are kept as `Finset`s. -/

/-- Embeds `len(s.split())`: Python whitespace split, empty chunks dropped. -/
def pyWordCount (s : String) : ℕ :=
  ((s.split fun c => c.isWhitespace).filter fun w => w ≠ "").length

/-- Embeds `_assess_coverage_quality` (lines 83–96). -/
def assess_coverage_quality (percentage : ℚ) (missingCount : ℕ) : String :=
  if percentage ≥ 90 then "excellent"
  else if percentage ≥ 75 then "very_good"
  else if percentage ≥ 60 then "good"
  else if percentage ≥ 40 then "adequate"
  else if percentage ≥ 25 then "poor"
  else "very_poor"

/-- Embeds `_rate_similarity` (lines 142–153). -/
def rate_similarity (jaccardScore : ℚ) : String :=
  if jaccardScore ≥ 4/5 then "very_high"
  else if jaccardScore ≥ 3/5 then "high"
  else if jaccardScore ≥ 2/5 then "moderate"
  else if jaccardScore ≥ 1/5 then "low"
  else "very_low"

/-- Embeds `_generate_coverage_suggestions` (lines 155–174); `missingList` is
the (unspecified-order) Python enumeration of the `missing` set. -/
def generate_coverage_suggestions (missing : Finset String)
    (missingList : List String) (quality : String) : List String :=
  (if quality = "very_poor" ∨ quality = "poor" then
    ["Focus on covering the fundamental concepts first",
     "Study the core terminology and definitions"]
  else []) ++
  (if missing.Nonempty then
    ["Consider including: " ++ String.intercalate ", " (missingList.take 3)]
  else []) ++
  (if quality = "adequate" ∨ quality = "good" then
    ["Add more depth to your explanations",
     "Include real-world examples to illustrate concepts"]
  else []) ++
  (if quality = "very_good" ∨ quality = "excellent" then
    ["Great coverage! Consider edge cases and advanced topics"]
  else [])

/-- The comparison dictionary of `_compare_with_ideal` (the `common_concepts`
/ `transcript_only` / `ideal_only` keys are unspecified-order set
enumerations and are not consumed by any claim). -/
structure IdealComparison where
  jaccard_similarity : ℚ
  length_ratio : ℚ
  similarity_rating : String
  deriving DecidableEq, Repr

/-- Embeds `_compare_with_ideal` (lines 114–140); both texts arrive already
lowercased, and `extract` abstracts `_extract_concepts`. -/
def compare_with_ideal (extract : String → Finset String)
    (transcript ideal : String) : IdealComparison :=
  let transcript_concepts := extract transcript
  let ideal_concepts := extract ideal
  let common_concepts := transcript_concepts ∩ ideal_concepts
  let unionConcepts := transcript_concepts ∪ ideal_concepts
  let jaccard_similarity : ℚ :=
    if unionConcepts.Nonempty then (common_concepts.card : ℚ) / unionConcepts.card else 0
  let transcript_words := pyWordCount transcript
  let ideal_words := pyWordCount ideal
  let length_ratio : ℚ :=
    if 0 < ideal_words then (transcript_words : ℚ) / ideal_words else 0
  { jaccard_similarity := pyRound jaccard_similarity 3
    length_ratio := pyRound length_ratio 2
    similarity_rating := rate_similarity jaccard_similarity }

/-- The expected-concept set of `analyze_concept_coverage` (lines 25–32):
rubric must-have and good-to-have concepts, plus the concepts extracted from
the ideal answer when one is given. -/
def expected_concepts (extract : String → Finset String)
    (ideal_answer : Option String) (question_rubric : Option Rubric) : Finset String :=
  let fromRubric : Finset String :=
    match question_rubric with
    | some rubric =>
      rubric.must_have_concepts.toFinset ∪ rubric.good_to_have_concepts.toFinset
    | none => ∅
  match ideal_answer with
  | some ideal => fromRubric ∪ extract (pyLower ideal)
  | none => fromRubric

/-- The keys of the dictionary returned by `analyze_concept_coverage` that the
claims, the suggestion synthesis and the fallback touch (whole-set list
conversions are kept as `Finset`s). -/
structure CoverageReport where
  coverage_percentage : ℚ
  covered_concepts : Finset String
  missing_concepts : Finset String
  additional_concepts : Finset String
  total_expected : ℕ
  total_covered : ℕ
  coverage_quality : String
  ideal_comparison : Option IdealComparison
  suggestions : List String
  issues : List String
  deriving DecidableEq

/-- Embeds `analyze_concept_coverage` (lines 17–66); `extract` abstracts the
regex pass `_extract_concepts`, `setList` the unspecified-order Python
enumeration of a set (the `issues` key exists only in the fallback
dictionary and is `[]` here). -/
def analyze_concept_coverage (extract : String → Finset String)
    (setList : Finset String → List String) (transcript : String)
    (ideal_answer : Option String) (question_rubric : Option Rubric) : CoverageReport :=
  let transcript_lower := pyLower transcript
  let transcript_concepts := extract transcript_lower
  let expected := expected_concepts extract ideal_answer question_rubric
  let covered_concepts := transcript_concepts ∩ expected
  let missing_concepts := expected \ transcript_concepts
  let additional_concepts := transcript_concepts \ expected
  let coverage_percentage : ℚ :=
    if expected.Nonempty then (covered_concepts.card : ℚ) / expected.card * 100 else 0
  let coverage_quality := assess_coverage_quality coverage_percentage missing_concepts.card
  { coverage_percentage := pyRound coverage_percentage 1
    covered_concepts := covered_concepts
    missing_concepts := missing_concepts
    additional_concepts := additional_concepts
    total_expected := expected.card
    total_covered := covered_concepts.card
    coverage_quality := coverage_quality
    ideal_comparison :=
      ideal_answer.map fun ideal => compare_with_ideal extract transcript_lower (pyLower ideal)
    suggestions := generate_coverage_suggestions missing_concepts
      (setList missing_concepts) coverage_quality
    issues := [] }

/-! ## `EnhancedEvaluationService` (`enhanced_evaluation_service.py`) -/

/-- First-occurrence deduplication, as `list(dict.fromkeys(suggestions))`
(line 148): `seen` accumulates the keys already emitted. -/
def pyDedupAux (seen : List String) : List String → List String
  | [] => []
  | a :: rest =>
    if a ∈ seen then pyDedupAux seen rest
    else a :: pyDedupAux (a :: seen) rest

/-- Embeds `list(dict.fromkeys(l))`: keeps the first occurrence of each entry. -/
def pyDedup (l : List String) : List String :=
  pyDedupAux [] l

/-- The suggestion list built by `_generate_comprehensive_suggestions`
(lines 107–145) before deduplication and truncation. -/
def merged_suggestions (clarity : ClarityReport) (confidence : ConfidenceReport)
    (technical : TechnicalReport) (structureRep : StructureReport)
    (coverage : CoverageReport) : List String :=
  (if clarity.score < 6 then
    clarity.strengths ++
    (if clarity.filler_count > 5 then
      ["Practice reducing filler words like \x27um\x27, \x27uh\x27, \x27like\x27"] else []) ++
    (if clarity.sentence_count < 3 then
      ["Structure your answer with more complete sentences"] else [])
  else []) ++
  (if confidence.score < 6 then
    (if confidence.hesitation_count > 3 then
      ["Practice your answers to reduce hesitation"] else []) ++
    (if confidence.passive_ratio > 3/20 then
      ["Use more active voice to sound more confident"] else []) ++
    (if confidence.confident_words = 0 then
      ["Include confident language like \x27definitely\x27, \x27certainly\x27"] else [])
  else []) ++
  (if technical.score < 6 then
    (if technical.missing_concepts ≠ [] then
      ["Study these key concepts: " ++
        String.intercalate ", " (technical.missing_concepts.take 3)] else []) ++
    (if technical.coverage_percentage < 50 then
      ["Focus on covering the fundamental concepts first"] else [])
  else []) ++
  (if structureRep.issues ≠ [] then structureRep.suggestions else []) ++
  coverage.suggestions

/-- Embeds `_generate_comprehensive_suggestions` (lines 107–149): merge,
deduplicate keeping first occurrences, truncate to the first 5. -/
def generate_comprehensive_suggestions (clarity : ClarityReport)
    (confidence : ConfidenceReport) (technical : TechnicalReport)
    (structureRep : StructureReport) (coverage : CoverageReport) : List String :=
  (pyDedup (merged_suggestions clarity confidence technical structureRep coverage)).take 5

/-- The evaluation-result record assembled by the service (creation metadata
omitted). -/
structure EvaluationResult where
  answer_id : String
  clarity_score : ClarityReport
  confidence_score : ConfidenceReport
  technical_score : TechnicalReport
  structure_analysis : StructureReport
  coverage_analysis : CoverageReport
  overall_score : ℚ
  suggestions : List String
  deriving DecidableEq

/-- Embeds `_create_fallback_evaluation` (lines 151–162).  The Python
fallback dictionaries carry only the keys shown in the source; keys absent
from them are filled with zero/empty placeholders here, and no claim depends
on those placeholders. -/
def create_fallback_evaluation (answer_id : String) : EvaluationResult :=
  { answer_id := answer_id
    clarity_score :=
      { score := 5, issues := ["Evaluation failed"], evidence := [], strengths := []
        filler_count := 0, sentence_count := 0, avg_sentence_length := 0 }
    confidence_score :=
      { score := 5, issues := ["Evaluation failed"], evidence := [], strengths := []
        hesitation_count := 0, passive_ratio := 0, confident_words := 0 }
    technical_score :=
      { score := 5, issues := ["Evaluation failed"], evidence := [], strengths := []
        missing_concepts := [], covered_concepts := [], coverage_percentage := 0 }
    structure_analysis :=
      { structure_score := 5, issues := ["Structure analysis failed"]
        suggestions := [], logical_flow := "" }
    coverage_analysis :=
      { coverage_percentage := 50, covered_concepts := ∅, missing_concepts := ∅
        additional_concepts := ∅, total_expected := 0, total_covered := 0
        coverage_quality := "", ideal_comparison := none, suggestions := []
        issues := ["Coverage analysis failed"] }
    overall_score := 5
    suggestions := ["Please try again or contact support if the issue persists"] }

/-- The body of the `try` block of `evaluate_answer` (lines 29–91).  Each
analyzer call is an `Except`-valued argument: `.error` models the analyzer
raising an exception at that point of the sequence, which aborts the block. -/
def evaluate_answer_try (answer_id : String)
    (clarityRes : Except String ClarityReport)
    (confidenceRes : Except String ConfidenceReport)
    (technicalRes : Except String TechnicalReport)
    (structureRes : Except String StructureReport)
    (coverageRes : Except String CoverageReport) :
    Except String EvaluationResult := do
  let clarity_result ← clarityRes
  let confidence_result ← confidenceRes
  let technical_result ← technicalRes
  let structure_result ← structureRes
  let coverage_result ← coverageRes
  pure
    { answer_id := answer_id
      clarity_score := clarity_result
      confidence_score := confidence_result
      technical_score := technical_result
      structure_analysis := structure_result
      coverage_analysis := coverage_result
      overall_score := calculate_overall_score clarity_result.score
        confidence_result.score technical_result.score
      suggestions := generate_comprehensive_suggestions clarity_result
        confidence_result technical_result structure_result coverage_result }

/-- Embeds `evaluate_answer` (lines 22–96): the `try` block, with the
`except Exception` handler returning the fallback evaluation. -/
def evaluate_answer (answer_id : String)
    (clarityRes : Except String ClarityReport)
    (confidenceRes : Except String ConfidenceReport)
    (technicalRes : Except String TechnicalReport)
    (structureRes : Except String StructureReport)
    (coverageRes : Except String CoverageReport) : EvaluationResult :=
  match evaluate_answer_try answer_id clarityRes confidenceRes technicalRes
      structureRes coverageRes with
  | .ok evaluation => evaluation
  | .error _ => create_fallback_evaluation answer_id

/-! ## Shared lemmas -/

/-- Rounding is the identity on integers. -/
theorem pyRoundInt_intCast (z : ℤ) : pyRoundInt (z : ℚ) = z := by
  unfold pyRoundInt
  norm_num

/-- Rounding `pyRound` is the identity on integers, for any number of digits. -/
theorem pyRound_intCast (z : ℤ) (n : ℕ) : pyRound (z : ℚ) n = z := by
  unfold pyRound
  have h : ((z : ℚ) * 10 ^ n) = ((z * 10 ^ n : ℤ) : ℚ) := by push_cast; ring
  rw [h, pyRoundInt_intCast]
  push_cast
  field_simp

/-- The deduplicated list is a sublist of the input. -/
theorem pyDedupAux_sublist : ∀ (l seen : List String), List.Sublist (pyDedupAux seen l) l
  | [], _ => List.Sublist.refl _
  | a :: rest, seen => by
    unfold pyDedupAux
    by_cases h : a ∈ seen
    · simp only [if_pos h]
      exact (pyDedupAux_sublist rest seen).cons a
    · simp only [if_neg h]
      exact (pyDedupAux_sublist rest (a :: seen)).cons₂ a

/-- Entries already seen are never emitted again. -/
theorem mem_pyDedupAux_not_seen :
    ∀ (l seen : List String) (x : String), x ∈ pyDedupAux seen l → x ∉ seen
  | [], _, _ => by simp [pyDedupAux]
  | a :: rest, seen, x => by
    unfold pyDedupAux
    by_cases h : a ∈ seen
    · simp only [if_pos h]
      exact mem_pyDedupAux_not_seen rest seen x
    · simp only [if_neg h, List.mem_cons]
      rintro (rfl | hx)
      · exact h
      · intro hxseen
        exact mem_pyDedupAux_not_seen rest (a :: seen) x hx (List.mem_cons_of_mem a hxseen)

/-- First-occurrence deduplication produces no duplicates. -/
theorem pyDedupAux_nodup : ∀ (l seen : List String), (pyDedupAux seen l).Nodup
  | [], _ => List.nodup_nil
  | a :: rest, seen => by
    unfold pyDedupAux
    by_cases h : a ∈ seen
    · simp only [if_pos h]
      exact pyDedupAux_nodup rest seen
    · simp only [if_neg h, List.nodup_cons]
      refine ⟨fun hmem => ?_, pyDedupAux_nodup rest (a :: seen)⟩
      exact mem_pyDedupAux_not_seen rest (a :: seen) a hmem (List.mem_cons_self a seen)

theorem pyDedup_sublist (l : List String) : List.Sublist (pyDedup l) l :=
  pyDedupAux_sublist l []

theorem pyDedup_nodup (l : List String) : (pyDedup l).Nodup :=
  pyDedupAux_nodup l []

/-! ## The claims -/

/-- C1: for every answer, question and optional audio input, `evaluate_answer`
is total and never raises to its caller: whenever any analyzer raises during
evaluation (any analyzer outcome is an error), all partial reports are
discarded and the fixed fallback evaluation is returned, whose three dimension
scores are each 5, whose overall score is 5.0, and whose suggestion list is
the single generic remediation suggestion (hence non-empty). -/
theorem evaluate_answer_fallback_on_error (answer_id : String)
    (clarityRes : Except String ClarityReport)
    (confidenceRes : Except String ConfidenceReport)
    (technicalRes : Except String TechnicalReport)
    (structureRes : Except String StructureReport)
    (coverageRes : Except String CoverageReport)
    (h : (∃ e, clarityRes = .error e) ∨ (∃ e, confidenceRes = .error e) ∨
      (∃ e, technicalRes = .error e) ∨ (∃ e, structureRes = .error e) ∨
      (∃ e, coverageRes = .error e)) :
    evaluate_answer answer_id clarityRes confidenceRes technicalRes structureRes
        coverageRes = create_fallback_evaluation answer_id ∧
    (create_fallback_evaluation answer_id).clarity_score.score = 5 ∧
    (create_fallback_evaluation answer_id).confidence_score.score = 5 ∧
    (create_fallback_evaluation answer_id).technical_score.score = 5 ∧
    (create_fallback_evaluation answer_id).overall_score = 5 ∧
    (create_fallback_evaluation answer_id).suggestions =
      ["Please try again or contact support if the issue persists"] := by
  refine ⟨?_, rfl, rfl, rfl, rfl, rfl⟩
  unfold evaluate_answer evaluate_answer_try
  cases clarityRes <;> cases confidenceRes <;> cases technicalRes <;>
    cases structureRes <;> cases coverageRes <;>
    first
      | rfl
      | (exfalso
         rcases h with ⟨e, he⟩ | ⟨e, he⟩ | ⟨e, he⟩ | ⟨e, he⟩ | ⟨e, he⟩ <;>
           exact Except.noConfusion he)

/-- Witness for C1 at a concrete failing input. -/
theorem evaluate_answer_fallback_on_error_witness :
    evaluate_answer "a1" (.error "boom") (.error "boom") (.error "boom")
        (.error "boom") (.error "boom") = create_fallback_evaluation "a1" ∧
    (create_fallback_evaluation "a1").clarity_score.score = 5 ∧
    (create_fallback_evaluation "a1").confidence_score.score = 5 ∧
    (create_fallback_evaluation "a1").technical_score.score = 5 ∧
    (create_fallback_evaluation "a1").overall_score = 5 ∧
    (create_fallback_evaluation "a1").suggestions =
      ["Please try again or contact support if the issue persists"] :=
  evaluate_answer_fallback_on_error "a1" _ _ _ _ _ (Or.inl ⟨"boom", rfl⟩)

/-- C3: for every transcript, rubric and audio-feature input, the scores of
the clarity, confidence and technical scorers and the structure score all lie
in the closed interval `[0, 10]`. -/
theorem all_scores_in_range :
    (∀ fc fw sc al fl, 0 ≤ (calculate_enhanced_clarity_score fc fw sc al fl).score ∧
      (calculate_enhanced_clarity_score fc fw sc al fl).score ≤ 10) ∧
    (∀ hc hw pr cc audio,
      0 ≤ (calculate_enhanced_confidence_score hc hw pr cc audio).score ∧
      (calculate_enhanced_confidence_score hc hw pr cc audio).score ≤ 10) ∧
    (∀ transcript rubric,
      0 ≤ (calculate_enhanced_technical_score transcript rubric).score ∧
      (calculate_enhanced_technical_score transcript rubric).score ≤ 10) ∧
    (∀ s, 0 ≤ calculate_structure_score s ∧ calculate_structure_score s ≤ 10) := by
  have hclamp : ∀ x : ℚ, 0 ≤ max 0 (min 10 x) ∧ max 0 (min 10 x) ≤ 10 := by
    intro x
    constructor
    · exact le_max_left 0 _
    · exact max_le (by norm_num) (min_le_left 10 x)
  refine ⟨?_, ?_, ?_, ?_⟩
  · intro fc fw sc al fl
    exact hclamp _
  · intro hc hw pr cc audio
    exact hclamp _
  · intro transcript rubric
    cases rubric with
    | none =>
      unfold calculate_enhanced_technical_score
      refine ⟨le_min (by norm_num) (by positivity), min_le_left _ _⟩
    | some rubric =>
      unfold calculate_enhanced_technical_score
      refine ⟨le_min (by norm_num) (le_max_left 0 _), min_le_left _ _⟩
  · intro s
    unfold calculate_structure_score
    constructor
    · refine le_min (by norm_num) ?_
      split_ifs <;> norm_num
    · exact min_le_left _ _

/-- C4: for every combination of analyzer reports, the suggestion list
produced by the synthesis has length at most 5, has no duplicate entries, and
is a sublist of the merged suggestion list (so the first-seen order of the
merged suggestions is preserved). -/
theorem comprehensive_suggestions_bounded_nodup_ordered (clarity : ClarityReport)
    (confidence : ConfidenceReport) (technical : TechnicalReport)
    (structureRep : StructureReport) (coverage : CoverageReport) :
    (generate_comprehensive_suggestions clarity confidence technical structureRep
      coverage).length ≤ 5 ∧
    (generate_comprehensive_suggestions clarity confidence technical structureRep
      coverage).Nodup ∧
    List.Sublist
      (generate_comprehensive_suggestions clarity confidence technical structureRep
        coverage)
      (merged_suggestions clarity confidence technical structureRep coverage) := by
  unfold generate_comprehensive_suggestions
  refine ⟨?_, ?_, ?_⟩
  · rw [List.length_take]
    exact min_le_left 5 _
  · exact (List.take_sublist 5 _).nodup (pyDedup_nodup _)
  · exact (List.take_sublist 5 _).trans (pyDedup_sublist _)

/-- C8: for every transcript, whenever the expected-concept set built from
the rubric and the optional ideal answer is empty, the coverage percentage of
the coverage analyzer is 0. -/
theorem coverage_percentage_zero_of_expected_empty
    (extract : String → Finset String) (setList : Finset String → List String)
    (transcript : String) (ideal_answer : Option String)
    (question_rubric : Option Rubric)
    (h : expected_concepts extract ideal_answer question_rubric = ∅) :
    (analyze_concept_coverage extract setList transcript ideal_answer
      question_rubric).coverage_percentage = 0 := by
  unfold analyze_concept_coverage
  simp only [h, Finset.not_nonempty_empty, if_false]
  have h0 : ((0 : ℤ) : ℚ) = 0 := by norm_num
  rw [← h0, pyRound_intCast]

/-- Witness for C8 at a concrete input with an empty expected set. -/
theorem coverage_percentage_zero_of_expected_empty_witness :
    (analyze_concept_coverage (fun _ => ∅) (fun _ => []) "a hash map" none
      none).coverage_percentage = 0 :=
  coverage_percentage_zero_of_expected_empty (fun _ => ∅) (fun _ => [])
    "a hash map" none none rfl

/-- C9: the Jaccard similarity reported by the ideal-answer comparison is
symmetric in the two texts, for every concept extraction. -/
theorem jaccard_similarity_symmetric (extract : String → Finset String)
    (transcript ideal : String) :
    (compare_with_ideal extract transcript ideal).jaccard_similarity =
      (compare_with_ideal extract ideal transcript).jaccard_similarity := by
  unfold compare_with_ideal
  simp only
  rw [Finset.inter_comm, Finset.union_comm]

/-- C10 counterexample: the claim fails as stated.  With an empty must-have
list every transcript vacuously contains all must-have concepts, yet when the
(absent) good-to-have concepts are the only rubric entries the reported
coverage percentage is 0, not 100. -/
theorem technical_full_coverage_counterexample :
    (∀ c ∈ ([] : List String), conceptIn (pyLower "") c = true) ∧
    (calculate_enhanced_technical_score ""
      (some ⟨[], ["hash"], []⟩)).coverage_percentage = 0 ∧
    ¬ (calculate_enhanced_technical_score ""
      (some ⟨[], ["hash"], []⟩)).coverage_percentage = 100 := by
  exact ⟨by simp, by decide, by decide⟩

/-- C10 (amended): in rubric mode the missing-concept list contains exactly
the must-have concepts absent from the transcript (an absent good-to-have
concept is never added), and for a non-empty must-have list, every transcript
containing all must-have concepts is reported with coverage percentage 100,
whatever the good-to-have concepts (in particular when all are absent). -/
theorem technical_missing_concepts_and_full_coverage (transcript : String)
    (must good red : List String) :
    (∀ s, s ∈ (calculate_enhanced_technical_score transcript
        (some ⟨must, good, red⟩)).missing_concepts ↔
      (s ∈ must ∧ ¬ conceptIn (pyLower transcript) s = true)) ∧
    (must ≠ [] → (∀ c ∈ must, conceptIn (pyLower transcript) c = true) →
      (calculate_enhanced_technical_score transcript
        (some ⟨must, good, red⟩)).missing_concepts = [] ∧
      (calculate_enhanced_technical_score transcript
        (some ⟨must, good, red⟩)).coverage_percentage = 100) := by
  unfold calculate_enhanced_technical_score
  simp only
  constructor
  · intro s
    simp [List.mem_filter]
  · intro hne hall
    have hmissing : must.filter (fun c => !conceptIn (pyLower transcript) c) = [] := by
      rw [List.filter_eq_nil_iff]
      intro a ha
      simp [hall a ha]
    have hcovered : must.filter (fun c => conceptIn (pyLower transcript) c) = must := by
      rw [List.filter_eq_self]
      intro a ha
      exact hall a ha
    refine ⟨hmissing, ?_⟩
    rw [hmissing, hcovered]
    have hlen : (0:ℚ) <
        ((must ++ good.filter (fun c => conceptIn (pyLower transcript) c)).length : ℚ) := by
      have : 0 < must.length := List.length_pos.mpr hne
      have hle : must.length ≤
          (must ++ good.filter (fun c => conceptIn (pyLower transcript) c)).length := by
        rw [List.length_append]
        omega
      exact_mod_cast lt_of_lt_of_le this hle
    have hval : (((must ++ good.filter (fun c => conceptIn (pyLower transcript) c)).length : ℚ) /
        ((([] : List String).length : ℚ) +
          (must ++ good.filter (fun c => conceptIn (pyLower transcript) c)).length) * 100) =
        ((100 : ℤ) : ℚ) := by
      rw [List.length_nil]
      push_cast
      rw [zero_add, div_self (ne_of_gt hlen)]
      norm_num
    have hcond : (must ++ good.filter (fun c => conceptIn (pyLower transcript) c)) ≠ [] := by
      intro hnil
      rcases List.append_eq_nil.mp hnil with ⟨h1, _⟩
      exact hne h1
    simp only [if_pos (Or.inr hcond), hval, pyRound_intCast]
    norm_num

/-- Witness for C10 at a concrete input: both must-have concepts appear in
the transcript, the good-to-have concept is absent, coverage is 100. -/
theorem technical_missing_concepts_and_full_coverage_witness :
    (calculate_enhanced_technical_score "a hash uses buckets"
      (some ⟨["hash", "buckets"], ["collision"], []⟩)).missing_concepts = [] ∧
    (calculate_enhanced_technical_score "a hash uses buckets"
      (some ⟨["hash", "buckets"], ["collision"], []⟩)).coverage_percentage = 100 :=
  (technical_missing_concepts_and_full_coverage "a hash uses buckets"
    ["hash", "buckets"] ["collision"] []).2 (by decide) (by decide)

/-- C5 counterexample: the claim fails as stated.  A structure report whose
issue list is empty but whose suggestion list is non-empty is not folded into
the merged suggestions: the fold of the structure suggestions is guarded by
the issue list being non-empty. -/
theorem structure_suggestions_not_unconditional :
    (StructureReport.mk 5 [] ["Start with a clear definition or overview"]
      "basic_structure").issues = [] ∧
    "Start with a clear definition or overview" ∈
      (StructureReport.mk 5 [] ["Start with a clear definition or overview"]
        "basic_structure").suggestions ∧
    "Start with a clear definition or overview" ∉
      merged_suggestions
        ⟨10, [], [], [], 0, 5, 10⟩
        ⟨10, [], [], [], 0, 0, 1⟩
        ⟨10, [], [], [], [], [], 100⟩
        (StructureReport.mk 5 [] ["Start with a clear definition or overview"]
          "basic_structure")
        ⟨100, ∅, ∅, ∅, 0, 0, "excellent", none, [], []⟩ := by
  refine ⟨rfl, by decide, by decide⟩

/-- C5 (amended): the suggestion list of the coverage analyzer is folded into the
merged suggestions unconditionally; the suggestion list of the structure analyzer
is folded in exactly under the guard that the structure issue list is
non-empty — which, for reports actually produced by the structure analyzer,
is equivalent to an unconditional fold, because an analyzer report with an
empty issue list always has an empty suggestion list. -/
theorem suggestion_folding_structure_coverage (clarity : ClarityReport)
    (confidence : ConfidenceReport) (technical : TechnicalReport)
    (structureRep : StructureReport) (coverage : CoverageReport) :
    (∃ pre, merged_suggestions clarity confidence technical structureRep coverage =
      pre ++ coverage.suggestions) ∧
    (structureRep.issues ≠ [] →
      ∃ pre, merged_suggestions clarity confidence technical structureRep coverage =
        pre ++ (structureRep.suggestions ++ coverage.suggestions)) ∧
    (∀ s : StructureInfo, identify_structure_issues s = [] →
      generate_structure_suggestions s (identify_structure_issues s) = []) := by
  refine ⟨?_, ?_, ?_⟩
  · unfold merged_suggestions
    exact ⟨_, rfl⟩
  · intro h
    unfold merged_suggestions
    rw [if_pos h]
    exact ⟨_, List.append_assoc _ _ _⟩
  · intro s h
    rcases s with ⟨dI, dE, dX, dC, pI, pE, pX, pC⟩
    cases dI <;> cases dE <;> cases dX <;> cases dC <;>
      simp_all [identify_structure_issues, generate_structure_suggestions]
    split_ifs <;> simp_all

/-- Witness for C5 at concrete reports with a non-empty structure issue
list. -/
theorem suggestion_folding_structure_coverage_witness :
    ∃ pre,
      merged_suggestions
        ⟨10, [], [], [], 0, 5, 10⟩
        ⟨10, [], [], [], 0, 0, 1⟩
        ⟨10, [], [], [], [], [], 100⟩
        (StructureReport.mk 3 ["Missing clear introduction"]
          ["Start with a clear definition or overview"] "basic_structure")
        ⟨100, ∅, ∅, ∅, 0, 0, "excellent", none, ["Add more depth to your explanations"], []⟩ =
      pre ++ (["Start with a clear definition or overview"] ++
        ["Add more depth to your explanations"]) :=
  (suggestion_folding_structure_coverage _ _ _ _ _).2.1 (by decide)

/-- C7 counterexample: the claim fails as stated.  Introduction, example and
explanation are all detected, the position of the example (5) precedes the
position of the explanation (10), yet no "Example appears before explanation"
issue is reported, because the source only reports it when no explanation is
detected at all. -/
theorem example_before_explanation_claim_counterexample :
    (StructureInfo.mk true true true false 0 10 5 (-1)).introductionDetected = true ∧
    (StructureInfo.mk true true true false 0 10 5 (-1)).exampleDetected = true ∧
    (StructureInfo.mk true true true false 0 10 5 (-1)).explanationDetected = true ∧
    (StructureInfo.mk true true true false 0 10 5 (-1)).examplePos <
      (StructureInfo.mk true true true false 0 10 5 (-1)).explanationPos ∧
    "Example appears before explanation" ∉
      identify_structure_issues (StructureInfo.mk true true true false 0 10 5 (-1)) := by
  refine ⟨rfl, rfl, rfl, by decide, by decide⟩

/-- C7 (amended): the structure analyzer reports "Example appears before
explanation" exactly when an example and an introduction are detected, no
explanation is detected at all (its recorded position is `-1`), and the
position of the example comes after that of the introduction. -/
theorem example_before_explanation_issue_iff (s : StructureInfo) :
    "Example appears before explanation" ∈ identify_structure_issues s ↔
      (s.exampleDetected = true ∧ s.introductionDetected = true ∧
       s.explanationPos = -1 ∧ s.introductionPos < s.examplePos) := by
  rcases s with ⟨dI, dE, dX, dC, pI, pE, pX, pC⟩
  cases dI <;> cases dE <;> cases dX <;> cases dC <;>
    simp [identify_structure_issues]

/-- The dictionary-key strings happen to be in strictly descending canonical
order alphabetically ("conclusion" < "example" < "explanation" <
"introduction"), so the string comparison is the reversed canonical-index
comparison. -/
theorem nameLt_eq (a b : SComp) :
    nameLt a b = decide (orderIndex b < orderIndex a) := by
  cases a <;> cases b <;> decide

/-- Sorting the four `(position, component)` pairs and scanning the canonical
indices succeeds exactly when the four positions are strictly increasing in
canonical order: on a tie the alphabetical tie-break orders the two
components against the canonical order, so any tie fails the scan. -/
theorem pySort_canonical_ascending (pI pE pX pC : ℤ) :
    ascendingScan (((pySort [(pI, SComp.introduction), (pE, SComp.explanation),
      (pX, SComp.exampleComp), (pC, SComp.conclusion)]).map fun pc => pc.2).map
        orderIndex) =
      (decide (pI < pE) && decide (pE < pX) && decide (pX < pC)) := by
  simp only [pySort, insertPair, pairLt, nameLt_eq, orderIndex]
  norm_num
  split_ifs <;>
    simp_all [insertPair, pairLt, nameLt_eq, ascendingScan, orderIndex] <;>
    first
      | omega
      | (split_ifs <;>
         simp_all [insertPair, pairLt, nameLt_eq, ascendingScan, orderIndex] <;>
         first
           | omega
           | (split_ifs <;>
              simp_all [insertPair, pairLt, nameLt_eq, ascendingScan, orderIndex]))

/-- When all four positions are non-negative (all components detected), the
logical-order check holds exactly when the positions strictly increase in the
canonical order introduction, explanation, example, conclusion. -/
theorem is_logical_order_of_nonneg (s : StructureInfo)
    (hI : 0 ≤ s.introductionPos) (hE : 0 ≤ s.explanationPos)
    (hX : 0 ≤ s.examplePos) (hC : 0 ≤ s.conclusionPos) :
    is_logical_order s =
      (decide (s.introductionPos < s.explanationPos) &&
       decide (s.explanationPos < s.examplePos) &&
       decide (s.examplePos < s.conclusionPos)) := by
  rcases s with ⟨dI, dE, dX, dC, pI, pE, pX, pC⟩
  dsimp only at hI hE hX hC ⊢
  unfold is_logical_order
  have hfilter : ((StructureInfo.mk dI dE dX dC pI pE pX pC).positionsItems.filter
      fun cp => decide (0 ≤ cp.2)) =
      [(SComp.introduction, pI), (SComp.explanation, pE),
       (SComp.exampleComp, pX), (SComp.conclusion, pC)] := by
    simp [StructureInfo.positionsItems, List.filter, hI, hE, hX, hC]
  rw [hfilter]
  simp only [List.map_cons, List.map_nil]
  exact pySort_canonical_ascending pI pE pX pC

/-- C6: for every (well-formed) detection outcome, the logical-flow label is
"no_structure" exactly when zero structural components are detected, and
"excellent_structure" exactly when all four components are detected and
their match positions appear in the canonical order introduction,
explanation, example, conclusion. -/
theorem logical_flow_no_structure_and_excellent (s : StructureInfo)
    (hwf : s.WF) :
    (assess_logical_flow s = "no_structure" ↔ detected_count s = 0) ∧
    (assess_logical_flow s = "excellent_structure" ↔
      (s.introductionDetected = true ∧ s.explanationDetected = true ∧
       s.exampleDetected = true ∧ s.conclusionDetected = true ∧
       s.introductionPos < s.explanationPos ∧
       s.explanationPos < s.examplePos ∧ s.examplePos < s.conclusionPos)) := by
  obtain ⟨hwI, hwE, hwX, hwC⟩ := hwf
  rcases s with ⟨dI, dE, dX, dC, pI, pE, pX, pC⟩
  dsimp only at hwI hwE hwX hwC ⊢
  cases dI <;> cases dE <;> cases dX <;> cases dC <;>
    first
      | (simp_all [assess_logical_flow, detected_count]; done)
      | (have hI := hwI.mp rfl
         have hE := hwE.mp rfl
         have hX := hwX.mp rfl
         have hC := hwC.mp rfl
         simp only [assess_logical_flow, detected_count]
         norm_num
         rw [is_logical_order_of_nonneg _ hI hE hX hC]
         by_cases h1 : pI < pE <;> by_cases h2 : pE < pX <;> by_cases h3 : pX < pC <;>
           first
             | (simp_all; done)
             | (simp_all
                split_ifs <;> simp_all))

/-- Witness for C6 at a concrete well-formed detection outcome in canonical
order. -/
theorem logical_flow_no_structure_and_excellent_witness :
    (assess_logical_flow (StructureInfo.mk true true true true 0 1 2 3) =
        "no_structure" ↔
      detected_count (StructureInfo.mk true true true true 0 1 2 3) = 0) ∧
    (assess_logical_flow (StructureInfo.mk true true true true 0 1 2 3) =
        "excellent_structure" ↔
      ((StructureInfo.mk true true true true 0 1 2 3).introductionDetected = true ∧
       (StructureInfo.mk true true true true 0 1 2 3).explanationDetected = true ∧
       (StructureInfo.mk true true true true 0 1 2 3).exampleDetected = true ∧
       (StructureInfo.mk true true true true 0 1 2 3).conclusionDetected = true ∧
       (StructureInfo.mk true true true true 0 1 2 3).introductionPos <
         (StructureInfo.mk true true true true 0 1 2 3).explanationPos ∧
       (StructureInfo.mk true true true true 0 1 2 3).explanationPos <
         (StructureInfo.mk true true true true 0 1 2 3).examplePos ∧
       (StructureInfo.mk true true true true 0 1 2 3).examplePos <
         (StructureInfo.mk true true true true 0 1 2 3).conclusionPos)) :=
  logical_flow_no_structure_and_excellent
    (StructureInfo.mk true true true true 0 1 2 3)
    (by unfold StructureInfo.WF; decide)

end InterviewSim
